import Mathlib

/-!
Shallow embedding of `src/utils/antlr_grammar_gen.py`: the build-orchestration
helper that validates the installed ANTLR4 version, invokes the generator,
deletes extraneous generated files, and drives the external Swift build tool.

External subprocess calls and prints are modelled as an explicit effect trace;
the output directory is modelled as a list of named entries; the version-banner
regular expression is modelled by an anchored matcher with the same greedy
semantics as the pattern used in the source.
-/

namespace AntlrGrammarGen

/-- Observable effect of one step of the script: a printed line, a subprocess
invocation (command, argument list, optional working directory), or a file
deletion. -/
inductive Effect where
  | print (line : String)
  | runProc (cmd : String) (args : List String) (workDir : Option String)
  | deleteFile (path : String)
deriving DecidableEq

/-- Result of running `validate_antlr_version` on a given generator output:
the effects it performs and the exit code when it terminates the process
(`none` means it returns normally). -/
structure Outcome where
  effects : List Effect
  exitCode : Option Nat
deriving DecidableEq

/-- Minimum required ANTLR version, `antlr_req = "4.11"` in the source. -/
def antlr_req : String := "4.11"

/-- `swift_build_args = ["-c=release"]` in the source. -/
def swift_build_args : List String := ["-c=release"]

/-- Modelled from the spec: the fixed grammars package location used as the
working directory for the Swift tool. The concrete path lives in the missing
`generator_paths` module; only its fixedness matters here. -/
def grammars_package_root : String := "AntlrGrammars"

/-- Modelled from the spec: `grammars_package_path` from the missing
`generator_paths` module resolves a path inside the fixed package location. -/
def grammars_package_path (p : String) : String :=
  grammars_package_root ++ "/" ++ p

/-- Boolean test that the characters of `pre` form a prefix of those of `s`. -/
def strStarts (pre s : String) : Bool :=
  decide (pre.data <+: s.data)

/-- Modelled from the spec: `make_relative` from the missing `generator_paths`
module converts a path to be relative to the given base directory; an
already-relative path is returned unchanged (the spec states idempotence). -/
def make_relative (base p : String) : String :=
  if strStarts (base ++ "/") p then p.drop (base.length + 1) else p

/-- `call_swift(*args)`: runs the Swift tool with the working directory pinned
to the grammars package path. -/
def call_swift (args : List String) : Effect :=
  Effect.runProc "swift" args (some (grammars_package_path "."))

/-- `build_swift_gen_transformer()`: effect trace of the build entry point. -/
def build_swift_gen_transformer : List Effect :=
  [call_swift (["build"] ++ swift_build_args)]

/-- `transform_source(swift_files)`: effect trace of the transform entry
point. The file paths are passed through verbatim. -/
def transform_source (swift_files : List String) : List Effect :=
  [Effect.print "Transforming source files...",
   call_swift (["run"] ++ swift_build_args ++ ["--skip-build", "AntlrGrammars"] ++ swift_files)]

/-- One entry of the output directory: its file name and whether it is a
regular file (directories and other non-regular entries have `isFile = false`). -/
structure Entry where
  name : String
  isFile : Bool
deriving DecidableEq

/-- Whether a file name is matched by the glob pattern `*` followed by `ext`,
i.e. whether `ext` is a suffix of the name. -/
def globExt (ext nm : String) : Bool :=
  decide (ext.data <:+ nm.data)

/-- One cleanup pass of `generate_antlr_grammar`: walk the directory entries,
delete every regular file matching the extension and print one confirmation
line per deleted file; return the remaining entries and the effect trace. -/
def cleanup_pass (cwd outP ext : String) : List Entry → List Entry × List Effect
  | [] => ([], [])
  | e :: rest =>
    let r := cleanup_pass cwd outP ext rest
    if e.isFile && globExt ext e.name then
      (r.1,
       Effect.deleteFile (outP ++ "/" ++ e.name) ::
       Effect.print ("Removed " ++ make_relative cwd (outP ++ "/" ++ e.name)) :: r.2)
    else
      (e :: r.1, r.2)

/-- The two effects (deletion plus confirmation line) produced for each entry
of a list of deleted files. -/
def removal_effects (cwd outP : String) (es : List Entry) : List Effect :=
  es.foldr (fun e acc =>
    Effect.deleteFile (outP ++ "/" ++ e.name) ::
    Effect.print ("Removed " ++ make_relative cwd (outP ++ "/" ++ e.name)) :: acc) []

/-- `generate_antlr_grammar(output_path, files, antlr_v)`: builds the generator
argument list (version selector first when supplied), invokes `antlr4`, then
performs the `*.interp` and `*.tokens` cleanup passes over the output
directory `dir`. Returns the effect trace and the resulting directory. -/
def generate_antlr_grammar (cwd output_path : String) (files : List String)
    (antlr_v : Option String) (dir : List Entry) : List Effect × List Entry :=
  let normalized_paths := files.map (make_relative cwd)
  let rel_output_path := make_relative cwd output_path
  let baseArgs := ["-Dlanguage=Swift", "-visitor"] ++ normalized_paths ++
    ["-o", rel_output_path, "-Xexact-output-dir"]
  let args := match antlr_v with
    | some v => ["-v", v] ++ baseArgs
    | none => baseArgs
  let p1 := cleanup_pass cwd output_path ".interp" dir
  let p2 := cleanup_pass cwd output_path ".tokens" p1.1
  (Effect.print ("Generating Antlr grammar files to " ++ rel_output_path ++ "...") ::
   Effect.runProc "antlr4" args none ::
   Effect.print ("Removing extraneous generated files in " ++ rel_output_path ++ "...") ::
   (p1.2 ++ p2.2),
   p2.1)

/-- Whitespace class of the banner pattern (the ASCII characters matched by
the whitespace escape in the source regular expression). -/
def isSpaceChar (c : Char) : Bool :=
  c = ' ' || c = '\t' || c = '\n' || c = '\r' || c = Char.ofNat 11 || c = Char.ofNat 12

/-- Strip an exact literal from the front of the input, or fail. -/
def stripLit : List Char → List Char → Option (List Char)
  | [], rest => some rest
  | _ :: _, [] => none
  | l :: ls, c :: cs => if c = l then stripLit ls cs else none

/-- Consume one or more whitespace characters, or fail. -/
def spaces1 (cs : List Char) : Option (List Char) :=
  let sp := cs.takeWhile isSpaceChar
  if sp.isEmpty then none else some (cs.drop sp.length)

/-- Greedily consume further dot-separated digit runs: each step requires a
dot immediately followed by at least one digit, matching the backtracking
behaviour of the dotted-version group of the source pattern. -/
def dottedTail : Nat → List Char → List String × List Char
  | 0, cs => ([], cs)
  | fuel + 1, '.' :: rest =>
    let run := rest.takeWhile Char.isDigit
    if run.isEmpty then ([], '.' :: rest)
    else
      let r := dottedTail fuel (rest.drop run.length)
      (String.mk run :: r.1, r.2)
  | _ + 1, cs => ([], cs)

/-- Match the dotted-version capture group at the front of the input: one or
more digit runs separated by dots, at least two runs in total, taken greedily. -/
def parseVersion (cs : List Char) : Option (String × List Char) :=
  let run1 := cs.takeWhile Char.isDigit
  if run1.isEmpty then none
  else
    let r := dottedTail cs.length (cs.drop run1.length)
    if r.1.isEmpty then none
    else some (String.intercalate "." (String.mk run1 :: r.1), r.2)

/-- Anchored match of the banner pattern against the generator output,
returning the captured version string on success. -/
def bannerMatch (s : String) : Option String :=
  (stripLit "ANTLR Parser Generator".data s.data).bind fun r1 =>
  (spaces1 r1).bind fun r2 =>
  (stripLit "Version".data r2).bind fun r3 =>
  (spaces1 r3).bind fun r4 =>
  (parseVersion r4).map (fun pr => pr.1)

/-- Diagnostic printed when the banner pattern does not match. -/
def antlr_not_found_msg : String :=
  "Antlr4 not found! Please install Antlr4 before proceeding: https://antlr.org"

/-- Diagnostic printed on a version mismatch, naming the expected and the
found versions. -/
def version_mismatch_msg (req found : String) : String :=
  "Expected Antlr version " ++ req ++ ".*, but found " ++ found ++ "!"

/-- Body of `validate_antlr_version` after the probe call, parameterised by
the required version constant and the probe output text. -/
def validate_core (req antlr_call : String) : Outcome :=
  match bannerMatch antlr_call with
  | none => { effects := [Effect.print antlr_not_found_msg], exitCode := some 1 }
  | some antlr_version =>
    if strStarts req antlr_version then { effects := [], exitCode := none }
    else
      { effects := [Effect.print (version_mismatch_msg req antlr_version)],
        exitCode := some 1 }

/-- `validate_antlr_version`, applied to the text the generator printed for
the probe invocation. -/
def validate_antlr_version (antlr_call : String) : Outcome :=
  validate_core antlr_req antlr_call

/-- C5: for the banner "ANTLR Parser Generator  Version 4.11.1" and the
required version "4.11", `validate_antlr_version` returns normally, with no
exit and no printed diagnostic. -/
theorem validate_accepts_4_11_1 :
    validate_antlr_version "ANTLR Parser Generator  Version 4.11.1" =
      { effects := [], exitCode := none } := by decide

/-- C4: for a banner reporting version 4.10.3 and required version "4.11",
`validate_antlr_version` prints a diagnostic naming both the expected version
(4.11.*) and the found version (4.10.3) and exits with status 1. -/
theorem validate_rejects_4_10_3 :
    validate_antlr_version "ANTLR Parser Generator  Version 4.10.3" =
      { effects := [Effect.print "Expected Antlr version 4.11.*, but found 4.10.3!"],
        exitCode := some 1 } := by decide

/-- C3: for every generator output on which the banner pattern does not
match, `validate_antlr_version` prints the tool-not-found diagnostic and
exits with status 1. -/
theorem validate_no_banner_exits (s : String) (h : bannerMatch s = none) :
    validate_antlr_version s =
      { effects := [Effect.print antlr_not_found_msg], exitCode := some 1 } := by
  simp [validate_antlr_version, validate_core, h]

/-- Witness for C3 at the empty output string. -/
theorem validate_no_banner_exits_witness :
    validate_antlr_version "" =
      { effects := [Effect.print antlr_not_found_msg], exitCode := some 1 } :=
  validate_no_banner_exits "" (by decide)

/-- C8: the banner pattern is matched only at the very beginning of the
generator output: whenever the output does not match at position zero but the
banner pattern does match after some nonzero number of leading characters,
`validate_antlr_version` reports tool-not-found and exits with status 1
instead of extracting the later version. -/
theorem validate_anchored_at_start (t : String) (i : Nat) (_hi : 0 < i)
    (_hlater : (bannerMatch (t.drop i)).isSome = true)
    (hstart : bannerMatch t = none) :
    validate_antlr_version t =
      { effects := [Effect.print antlr_not_found_msg], exitCode := some 1 } := by
  simp [validate_antlr_version, validate_core, hstart]

/-- Witness for C8: one junk character before a full, otherwise valid banner. -/
theorem validate_anchored_at_start_witness :
    validate_antlr_version "*ANTLR Parser Generator Version 4.11.1" =
      { effects := [Effect.print antlr_not_found_msg], exitCode := some 1 } :=
  validate_anchored_at_start "*ANTLR Parser Generator Version 4.11.1" 1
    (by decide) (by decide) (by decide)

/-- C1 counterexample: with required version "4.11", a banner whose parsed
version is "4.110" (prefix "4.11" not followed by a separator) is accepted by
`validate_antlr_version`: it returns normally with no diagnostic and no exit,
contrary to the claimed version-mismatch rejection. -/
theorem validate_no_separator_check :
    bannerMatch "ANTLR Parser Generator Version 4.110" = some "4.110" ∧
    antlr_req = "4.11" ∧
    validate_antlr_version "ANTLR Parser Generator Version 4.110" =
      { effects := [], exitCode := none } := by decide

/-- C1 (amended): when the banner pattern matches with captured version `v`,
`validate_core` compares by plain string prefix: it accepts exactly when `v`
begins with the required string (no separator is required after the prefix,
so for example "4.110" is accepted for required "4.11"), and otherwise prints
the mismatch diagnostic naming both versions and exits with status 1. -/
theorem validate_startswith_semantics (req s v : String) (h : bannerMatch s = some v) :
    validate_core req s =
      if strStarts req v then { effects := [], exitCode := none }
      else
        { effects := [Effect.print (version_mismatch_msg req v)], exitCode := some 1 } := by
  simp [validate_core, h]

/-- Witness for the amended C1 at required "4.11" and parsed version "4.110". -/
theorem validate_startswith_semantics_witness :
    validate_core "4.11" "ANTLR Parser Generator Version 4.110" =
      { effects := [], exitCode := none } :=
  (validate_startswith_semantics "4.11" "ANTLR Parser Generator Version 4.110"
    "4.110" (by decide)).trans (by decide)

/-- C10: `build_swift_gen_transformer` performs exactly one effect, an
invocation of the Swift tool in build mode with the single flag -c=release
and the working directory pinned to the fixed grammars package path. -/
theorem build_swift_gen_transformer_invocation :
    build_swift_gen_transformer =
      [Effect.runProc "swift" ["build", "-c=release"]
        (some (grammars_package_path "."))] := rfl

/-- C7: `transform_source` first prints a status line and then invokes the
Swift tool pinned to the fixed package path, in run mode, with the release
flag, the skip-build flag, the fixed product name, and the source file paths
verbatim, in that order. -/
theorem transform_source_invocation (swift_files : List String) :
    transform_source swift_files =
      [Effect.print "Transforming source files...",
       Effect.runProc "swift"
         ("run" :: "-c=release" :: "--skip-build" :: "AntlrGrammars" :: swift_files)
         (some (grammars_package_path "."))] := rfl

/-- C6: for every working directory, output path, input list and optional
version selector, the generator invocation of `generate_antlr_grammar` (the
second effect of its trace) carries the arguments in exactly this order:
the version selector flag and value when supplied, the language flag, the
visitor flag, the input paths each made relative to the working directory,
the output flag with the relativised output path, and the exact-output-dir
flag. -/
theorem generate_invocation_args (cwd outP : String) (files : List String)
    (antlr_v : Option String) (dir : List Entry) (_hne : files ≠ []) :
    (generate_antlr_grammar cwd outP files antlr_v dir).1.get? 1 =
      some (Effect.runProc "antlr4"
        ((match antlr_v with | some v => ["-v", v] | none => []) ++
          ["-Dlanguage=Swift", "-visitor"] ++ files.map (make_relative cwd) ++
          ["-o", make_relative cwd outP, "-Xexact-output-dir"]) none) := by
  cases antlr_v <;> rfl

/-- Witness for C6 on a singleton input list with a version selector. -/
theorem generate_invocation_args_witness :
    (generate_antlr_grammar "/w" "/w/out" ["/w/A.g4"] (some "4.11") []).1.get? 1 =
      some (Effect.runProc "antlr4"
        ["-v", "4.11", "-Dlanguage=Swift", "-visitor", "A.g4",
         "-o", "out", "-Xexact-output-dir"] none) :=
  (generate_invocation_args "/w" "/w/out" ["/w/A.g4"] (some "4.11") []
    (by decide)).trans (by decide)

/-- C9: for an empty input list, `generate_antlr_grammar` still issues a
generator command containing the language flag, the visitor flag, the output
flag with the relativised output path and the exact-output-dir flag, with no
positional input-path arguments. -/
theorem generate_empty_input_args (cwd outP : String) (antlr_v : Option String)
    (dir : List Entry) :
    (generate_antlr_grammar cwd outP [] antlr_v dir).1.get? 1 =
      some (Effect.runProc "antlr4"
        ((match antlr_v with | some v => ["-v", v] | none => []) ++
          ["-Dlanguage=Swift", "-visitor", "-o", make_relative cwd outP,
           "-Xexact-output-dir"]) none) := by
  cases antlr_v <;> rfl

/-- The entries kept by a cleanup pass are exactly those that are not regular
files matching the extension, in their original order. -/
theorem cleanup_pass_entries (cwd outP ext : String) (dir : List Entry) :
    (cleanup_pass cwd outP ext dir).1 =
      dir.filter (fun e => !(e.isFile && globExt ext e.name)) := by
  induction dir with
  | nil => rfl
  | cons e rest ih =>
    cases hf : e.isFile <;> cases hg : globExt ext e.name <;>
      simp [cleanup_pass, List.filter_cons, hf, hg, ih]

/-- The effect trace of a cleanup pass is one deletion and one confirmation
line for each regular file matching the extension, in directory order. -/
theorem cleanup_pass_effects (cwd outP ext : String) (dir : List Entry) :
    (cleanup_pass cwd outP ext dir).2 =
      removal_effects cwd outP (dir.filter (fun e => e.isFile && globExt ext e.name)) := by
  induction dir with
  | nil => rfl
  | cons e rest ih =>
    cases hf : e.isFile <;> cases hg : globExt ext e.name <;>
      simp [cleanup_pass, removal_effects, List.filter_cons, hf, hg, ih]

/-- Two suffixes of the same list that have the same length are equal. -/
theorem suffix_eq_of_length {α : Type} {a b l : List α}
    (ha : a <:+ l) (hb : b <:+ l) (hlen : a.length = b.length) : a = b := by
  obtain ⟨t, ht⟩ := ha
  obtain ⟨u, hu⟩ := hb
  have h : t ++ a = u ++ b := ht.trans hu.symm
  have h1 := congrArg List.length ht
  have h2 := congrArg List.length hu
  simp only [List.length_append] at h1 h2
  exact (List.append_inj h (by omega)).2

/-- A name matched by the interp glob is not matched by the tokens glob. -/
theorem interp_tokens_exclusive (nm : String) (h : globExt ".interp" nm = true) :
    globExt ".tokens" nm = false := by
  cases htok : globExt ".tokens" nm with
  | false => rfl
  | true =>
    have ha : ".interp".data <:+ nm.data := of_decide_eq_true h
    have hb : ".tokens".data <:+ nm.data := of_decide_eq_true htok
    have heq : ".interp".data = ".tokens".data :=
      suffix_eq_of_length ha hb (by decide)
    exact absurd heq (by decide)

/-- The interp pass does not touch the set of tokens-matching regular files. -/
theorem filter_tokens_after_interp (dir : List Entry) :
    (dir.filter (fun e => !(e.isFile && globExt ".interp" e.name))).filter
        (fun e => e.isFile && globExt ".tokens" e.name) =
      dir.filter (fun e => e.isFile && globExt ".tokens" e.name) := by
  rw [List.filter_filter]
  refine List.filter_congr ?_
  intro e _
  cases hi : globExt ".interp" e.name with
  | false => simp [hi]
  | true => simp [hi, interp_tokens_exclusive e.name hi]

/-- Keeping the non-interp entries and then the non-tokens entries keeps
exactly the entries that are not regular files matching either extension. -/
theorem filter_not_interp_not_tokens (dir : List Entry) :
    (dir.filter (fun e => !(e.isFile && globExt ".interp" e.name))).filter
        (fun e => !(e.isFile && globExt ".tokens" e.name)) =
      dir.filter
        (fun e => !(e.isFile && (globExt ".interp" e.name || globExt ".tokens" e.name))) := by
  rw [List.filter_filter]
  refine List.filter_congr ?_
  intro e _
  cases hi : globExt ".interp" e.name with
  | false => simp [hi]
  | true => simp [hi, interp_tokens_exclusive e.name hi]

/-- C2: after the cleanup passes of `generate_antlr_grammar`, the directory
holds exactly its original entries other than the regular files matching
*.interp or *.tokens, in order; the cleanup portion of the effect trace is
one deletion with exactly one confirmation line per deleted file (interp
files first, then tokens files, in directory order); and in particular a
directory holding Foo.tokens, Foo.interp and Foo.swift retains only
Foo.swift. -/
theorem generate_cleanup_frame (cwd outP : String) (files : List String)
    (antlr_v : Option String) (dir : List Entry) :
    (generate_antlr_grammar cwd outP files antlr_v dir).2 =
      dir.filter
        (fun e => !(e.isFile && (globExt ".interp" e.name || globExt ".tokens" e.name))) ∧
    (generate_antlr_grammar cwd outP files antlr_v dir).1.drop 3 =
      removal_effects cwd outP
          (dir.filter (fun e => e.isFile && globExt ".interp" e.name)) ++
        removal_effects cwd outP
          (dir.filter (fun e => e.isFile && globExt ".tokens" e.name)) ∧
    (generate_antlr_grammar cwd outP files antlr_v
        [⟨"Foo.tokens", true⟩, ⟨"Foo.interp", true⟩, ⟨"Foo.swift", true⟩]).2 =
      [⟨"Foo.swift", true⟩] := by
  refine ⟨?_, ?_, ?_⟩
  · have h : (generate_antlr_grammar cwd outP files antlr_v dir).2 =
        (cleanup_pass cwd outP ".tokens" (cleanup_pass cwd outP ".interp" dir).1).1 := by
      cases antlr_v <;> rfl
    rw [h, cleanup_pass_entries, cleanup_pass_entries, filter_not_interp_not_tokens]
  · have h : (generate_antlr_grammar cwd outP files antlr_v dir).1.drop 3 =
        (cleanup_pass cwd outP ".interp" dir).2 ++
          (cleanup_pass cwd outP ".tokens" (cleanup_pass cwd outP ".interp" dir).1).2 := by
      cases antlr_v <;> rfl
    rw [h, cleanup_pass_effects, cleanup_pass_effects, cleanup_pass_entries,
      filter_tokens_after_interp]
  · have h : (generate_antlr_grammar cwd outP files antlr_v
        [⟨"Foo.tokens", true⟩, ⟨"Foo.interp", true⟩, ⟨"Foo.swift", true⟩]).2 =
        (cleanup_pass cwd outP ".tokens" (cleanup_pass cwd outP ".interp"
          [⟨"Foo.tokens", true⟩, ⟨"Foo.interp", true⟩, ⟨"Foo.swift", true⟩]).1).1 := by
      cases antlr_v <;> rfl
    rw [h, cleanup_pass_entries, cleanup_pass_entries]
    decide

end AntlrGrammarGen
